import Mathlib

/-!
Verification of the alfachatback chat server against its specification.

The operative code lives in the Gin web server of `src/bin/webdocks/chatgpt`
(handlers `handleSignup`, `authMiddleware`, `getRoomsHandler`,
`createRoomHandler`, `joinRoomHandler`, `getClientsHandler`, and the in-memory
`users` / `rooms` / `clients` slices), together with the swagger document of
`src/docs/docs.go` and the state store of
`src/internal/chat/repository/staterepo/staterepo.go`.  Handlers are embedded
as pure functions over the in-memory state they read and write; the WebSocket
session loop of `joinRoomHandler` is embedded as a function from the sequence
of transport events on one connection to the sequence of frames the server
writes back on that same connection.
-/

namespace AlfaChat

/-- `User` struct of the source: ID, Login, Password, Token, Role. -/
structure User where
  id : Nat
  login : String
  password : String
  token : String
  role : String
deriving DecidableEq, Repr

/-- `Room` struct of the source: ID, Name (both strings). -/
structure Room where
  id : String
  name : String
deriving DecidableEq, Repr

/-- `Client` struct of the source: ID, Name. -/
structure Client where
  id : String
  name : String
deriving DecidableEq, Repr

/-- Initial value of the global `rooms` slice in the source. -/
def initialRooms : List Room := [Room.mk "1" "room1", Room.mk "2" "room2"]

/-- Initial value of the global `clients` slice in the source. -/
def initialClients : List Client := [Client.mk "1" "User1", Client.mk "2" "User2"]

/-- Body of the `getRoomsHandler` response: either the JSON array of rooms or
a JSON message object. -/
inductive RoomsBody where
  | roomList (rs : List Room)
  | message (s : String)
deriving DecidableEq, Repr

/-- The message `getRoomsHandler` returns when the room list is empty. -/
def msgNoRooms : String := "Ни одной комнаты не создано"

/-- `getRoomsHandler` of the source: status 200 with a message object when the
room list is empty, otherwise status 200 with the room list. -/
def getRoomsHandler (rooms : List Room) : Nat × RoomsBody :=
  if rooms.length = 0 then (200, RoomsBody.message msgNoRooms)
  else (200, RoomsBody.roomList rooms)

/-- HTTP status codes the swagger document (`docTemplate` of
`src/docs/docs.go`) declares for GET `/auth/ws/getRooms`: 200 and 404. -/
def getRoomsDocResponses : List Nat := [200, 404]

/-- `createRoomHandler` of the source: a malformed body (BindJSON failure,
embedded as `none`) answers 400 and leaves the room list unchanged; otherwise
the submitted room is appended unconditionally and the handler answers 200. -/
def createRoomHandler (rooms : List Room) (req : Option Room) : List Room × Nat :=
  match req with
  | none => (rooms, 400)
  | some room => (rooms ++ [room], 200)

/-- `handleSignup` of the source: a malformed body answers 400; otherwise the
user's ID is set to `len(users) + 1`, the user is appended, and the handler
answers 200 with the stored user. -/
def handleSignup (users : List User) (req : Option User) :
    List User × Nat × Option User :=
  match req with
  | none => (users, 400, none)
  | some u =>
      let newUser : User := { u with id := users.length + 1 }
      (users ++ [newUser], 200, some newUser)

/-- `getClientsHandler` of the source: answers 200 with the global `clients`
slice; the `roomID` path parameter is read but the returned list does not
depend on it. -/
def getClientsHandler (clients : List Client) (roomID : String) :
    Nat × List Client :=
  (200, clients)

/-- Outcome of `authMiddleware`: either a 401 response with `c.Abort()` (the
protected handler never runs) or `c.Next()` with the verified username stored
in the request context. -/
inductive AuthOutcome where
  | abort401
  | proceed (username : String)
deriving DecidableEq, Repr

/-- The seven characters of the literal prefix checked by `authMiddleware`. -/
def bearerChars : List Char := ['B', 'e', 'a', 'r', 'e', 'r', ' ']

/-- `authMiddleware` of the source.  The header is a byte/char sequence (an
absent header reads as the empty sequence); token verification
(`jwt.ParseWithClaims` plus `token.Valid`) is the abstract parameter
`verify`, returning the username claim on success.  The source rejects when
the header is empty, has length at most 7, or its first seven characters are
not exactly the bearer prefix; then it rejects when verification fails;
otherwise it stores the username and continues. -/
def authMiddleware (verify : List Char → Option String)
    (authHeader : List Char) : AuthOutcome :=
  if authHeader = [] ∨ authHeader.length ≤ 7 ∨ authHeader.take 7 ≠ bearerChars
  then AuthOutcome.abort401
  else
    match verify (authHeader.drop 7) with
    | none => AuthOutcome.abort401
    | some username => AuthOutcome.proceed username

/-- One transport event observed by the `joinRoomHandler` loop on one
connection: a read error (loop breaks), or a successfully read frame carrying
the message text together with whether the subsequent `WriteMessage` of the
echo succeeds (on write error the loop breaks and nothing is delivered). -/
inductive FrameEvent where
  | readError
  | frame (msg : String) (writeOk : Bool)
deriving DecidableEq, Repr

/-- The string `fmt.Sprintf` builds for the echo write: `username: msg`. -/
def echoFormat (username msg : String) : String := username ++ ": " ++ msg

/-- The `for` loop of `joinRoomHandler`, per connection: read a frame (break on
read error), then write the formatted echo back on the same connection (break
on write error).  The result is the sequence of frames the server delivers to
this connection, in loop order.  The loop touches no state shared with any
other connection. -/
def joinRoomSession (username : String) : List FrameEvent → List String
  | [] => []
  | FrameEvent.readError :: _ => []
  | FrameEvent.frame msg writeOk :: rest =>
      if writeOk then echoFormat username msg :: joinRoomSession username rest
      else []

/-- Outcome of `joinRoomHandler`: 401 when no username is in the context, a
failed WebSocket upgrade, or an admitted echo session with the frames it
delivered to the joining connection. -/
inductive JoinOutcome where
  | unauthorized401
  | upgradeFailed
  | session (delivered : List String)
deriving DecidableEq, Repr

/-- Whether a `JoinOutcome` is an admitted session. -/
def JoinOutcome.isSession : JoinOutcome → Bool
  | JoinOutcome.session _ => true
  | _ => false

/-- `joinRoomHandler` of the source: answers 401 when the context holds no
username; otherwise upgrades the connection (abstracted as `upgradeOk`) and,
on success, runs the echo loop.  The `roomID` path parameter is used only in
a log line: no room lookup, registry check, or membership registration
occurs. -/
def joinRoomHandler (username : Option String) (roomID : String)
    (upgradeOk : Bool) (inbound : List FrameEvent) : JoinOutcome :=
  match username with
  | none => JoinOutcome.unauthorized401
  | some u =>
      if upgradeOk then JoinOutcome.session (joinRoomSession u inbound)
      else JoinOutcome.upgradeFailed

/-- Shorthand for a successfully read frame whose echo write succeeds. -/
def okFrame (m : String) : FrameEvent := FrameEvent.frame m true

/-- The messages of a connection's event list that the loop both reads and
successfully echoes: the prefix up to the first read or write error. -/
def readFrames : List FrameEvent → List String
  | [] => []
  | FrameEvent.readError :: _ => []
  | FrameEvent.frame msg true :: rest => msg :: readFrames rest
  | FrameEvent.frame _ false :: _ => []

/-- `models.State` record held by the state store, per the spec's
PresenceRecord: userID, current room or none, last-seen timestamp. -/
structure State where
  userID : Nat
  roomID : Option String
  lastSeen : Nat
deriving DecidableEq, Repr

/-- `stateStore` of `staterepo.go`: a map from userID to `models.State`,
embedded as an association list. -/
structure stateStore where
  states : List (Nat × State)
deriving DecidableEq, Repr

/-- `NewStateDB` of `staterepo.go`: the freshly constructed empty store. -/
def NewStateDB : stateStore := stateStore.mk []

/-- The default never-seen value: no room, zero timestamp. -/
def neverSeen (userID : Nat) : State := State.mk userID none 0

/-- Modelled from the spec: `PresenceStore.Get` is not under `src` (only the
`stateStore` map and the constructor `NewStateDB` of `staterepo.go` are).
Per the spec, `Get(userID)` returns the current record or a default
never-seen value and never fails. -/
def stateStore.get (s : stateStore) (userID : Nat) : State :=
  match s.states.find? (fun p => p.1 == userID) with
  | some p => p.2
  | none => neverSeen userID

/-- Modelled from the spec: the Connection's bounded outbound queue with
drop-oldest-and-signal backpressure.  No such queue exists under `src`; the
structure follows the spec's words: fixed capacity, queued items in arrival
order, a slow-consumer warning recorded once per window. -/
structure OutQueue where
  capacity : Nat
  items : List Nat
  warned : Bool
  warnings : Nat
deriving DecidableEq, Repr

/-- Modelled from the spec: `Send` enqueues when the queue has room; when the
queue is full it discards the oldest queued message, records the
slow-consumer warning if none was recorded in the current window, and
enqueues the new message. -/
def OutQueue.send (q : OutQueue) (m : Nat) : OutQueue :=
  if q.items.length < q.capacity then
    { q with items := q.items ++ [m] }
  else
    { q with
      items := q.items.tail ++ [m],
      warnings := if q.warned then q.warnings else q.warnings + 1,
      warned := true }

/-- Enqueue a list of messages in order, with no drain in between. -/
def OutQueue.sendAll (q : OutQueue) (ms : List Nat) : OutQueue :=
  ms.foldl OutQueue.send q

/-- A fresh queue of capacity 64 with no warning recorded. -/
def emptyQueue64 : OutQueue := OutQueue.mk 64 [] false 0

/-! ## Theorems -/

/-- C8: for every well-formed signup request, `handleSignup` answers 200,
assigns the new user the ID `len(users) + 1`, and appends the user with no
login-uniqueness check, so signing the same login up twice produces two
distinct user records with that login. -/
theorem handleSignup_spec (users : List User) (u : User) :
    handleSignup users (some u)
      = (users ++ [{ u with id := users.length + 1 }], 200,
         some { u with id := users.length + 1 })
    ∧ (handleSignup ((handleSignup users (some u)).1) (some u)).1
      = users ++ [{ u with id := users.length + 1 },
                  { u with id := users.length + 2 }]
    ∧ ({ u with id := users.length + 1 } : User)
        ≠ { u with id := users.length + 2 } := by
  refine ⟨rfl, ?_, ?_⟩
  · simp [handleSignup]
  · intro h
    have : users.length + 1 = users.length + 2 := congrArg User.id h
    omega

/-- C10: `getRoomsHandler` always answers HTTP 200 and never 404 — the room
list as a JSON array when at least one room exists, a JSON message object
when the list is empty — even though the swagger document declares a 404
response for this endpoint. -/
theorem getRoomsHandler_always_ok (rooms : List Room) (r : Room)
    (rest : List Room) :
    (getRoomsHandler rooms).1 = 200
    ∧ (getRoomsHandler rooms).1 ≠ 404
    ∧ getRoomsHandler [] = (200, RoomsBody.message msgNoRooms)
    ∧ getRoomsHandler (r :: rest) = (200, RoomsBody.roomList (r :: rest))
    ∧ 404 ∈ getRoomsDocResponses := by
  refine ⟨?_, ?_, rfl, rfl, by decide⟩ <;>
    cases rooms <;> simp [getRoomsHandler]

/-- C2 counterexample: `getClientsHandler` returns the identical fixed client
list for the two distinct rooms "1" and "2" — it is a room-independent list,
not the set of users currently online in the requested room. -/
theorem getClients_counterexample :
    getClientsHandler initialClients "1" = getClientsHandler initialClients "2"
    ∧ ("1" : String) ≠ "2" := by
  constructor
  · rfl
  · decide

/-- C2 amended: for every client list and every roomID, `getClientsHandler`
answers 200 with the global client list unchanged; the result does not depend
on the requested room and no presence lookup occurs. -/
theorem getClients_fixed_list (clients : List Client) (roomA roomB : String) :
    getClientsHandler clients roomA = (200, clients)
    ∧ getClientsHandler clients roomA = getClientsHandler clients roomB := by
  exact ⟨rfl, rfl⟩

/-- C4 counterexample: creating a room with ID "1" while `initialRooms`
already holds a room with ID "1" leaves the registry with two rooms carrying
that ID, refuting "at most one Room per roomID" and any deduplicating
GetOrCreate semantics. -/
theorem createRoom_duplicate_counterexample :
    ((createRoomHandler initialRooms (some (Room.mk "1" "dup"))).1.countP
        (fun r => r.id == "1")) = 2 := by
  decide

/-- C4 amended: `createRoomHandler` appends the submitted room unconditionally
with no duplicate-ID check, so creating a roomID already present in the list
leaves at least two Room entries with that ID. -/
theorem createRoom_appends_duplicate (rooms : List Room) (room : Room)
    (h : room.id ∈ rooms.map Room.id) :
    2 ≤ ((createRoomHandler rooms (some room)).1.countP
        (fun r => r.id == room.id)) := by
  have hmem : ∃ r ∈ rooms, r.id = room.id := by
    simpa [List.mem_map, eq_comm] using h
  obtain ⟨r, hr, hid⟩ := hmem
  have h1 : 1 ≤ rooms.countP (fun r => r.id == room.id) := by
    have := List.countP_pos_iff (p := fun r => r.id == room.id) (l := rooms)
    refine this.mpr ⟨r, hr, ?_⟩
    simp [hid]
  have h2 : (createRoomHandler rooms (some room)).1.countP
      (fun r => r.id == room.id)
      = rooms.countP (fun r => r.id == room.id) + 1 := by
    simp [createRoomHandler, List.countP_append]
  omega

/-- C4 witness: instantiation of `createRoom_appends_duplicate` at the initial
room list and a duplicate of room "1". -/
theorem createRoom_appends_duplicate_witness :
    2 ≤ ((createRoomHandler initialRooms (some (Room.mk "1" "again"))).1.countP
        (fun r => r.id == "1")) :=
  createRoom_appends_duplicate initialRooms (Room.mk "1" "again") (by decide)

/-- C9: on every protected route, `authMiddleware` answers 401 and aborts —
the protected handler never runs — whenever the Authorization header is
absent or no longer than 7 characters, or does not begin with exactly the
bearer prefix, or the bearer token fails verification; otherwise it places
the verified username claim in the request context and continues. -/
theorem authMiddleware_spec (verify : List Char → Option String)
    (hdr : List Char) :
    ((hdr.length ≤ 7 ∨ hdr.take 7 ≠ bearerChars ∨ verify (hdr.drop 7) = none)
        → authMiddleware verify hdr = AuthOutcome.abort401)
    ∧ (∀ u, 7 < hdr.length → hdr.take 7 = bearerChars
        → verify (hdr.drop 7) = some u
        → authMiddleware verify hdr = AuthOutcome.proceed u) := by
  constructor
  · intro h
    unfold authMiddleware
    by_cases hc : hdr = [] ∨ hdr.length ≤ 7 ∨ hdr.take 7 ≠ bearerChars
    · simp [hc]
    · push_neg at hc
      rcases h with h | h | h
      · exact absurd h (Nat.not_le.mpr hc.2.1)
      · exact absurd hc.2.2 h
      · simp [hc.1, hc.2.1, hc.2.2, h]
  · intro u hlen htake hv
    have hne : hdr ≠ [] := by
      intro he
      rw [he] at hlen
      simp at hlen
    have hc : ¬(hdr = [] ∨ hdr.length ≤ 7 ∨ hdr.take 7 ≠ bearerChars) := by
      push_neg
      exact ⟨hne, by omega, htake⟩
    unfold authMiddleware
    simp only [if_neg hc, hv]

/-- C9 witness: instantiation of `authMiddleware_spec` at a verifier accepting
the token "tok" as user "alice", once with a valid header and once with a
too-short header. -/
theorem authMiddleware_spec_witness :
    authMiddleware (fun t => if t = ['t', 'o', 'k'] then some "alice" else none)
        ['B', 'e', 'a', 'r', 'e', 'r', ' ', 't', 'o', 'k']
      = AuthOutcome.proceed "alice"
    ∧ authMiddleware
        (fun t => if t = ['t', 'o', 'k'] then some "alice" else none) ['x']
      = AuthOutcome.abort401 :=
  ⟨(authMiddleware_spec _ _).2 "alice" (by decide) (by decide) (by decide),
   (authMiddleware_spec _ _).1 (Or.inl (by decide))⟩

/-- C5: `Get` on the state store is total: for every store state — the fresh
`NewStateDB` included — it returns the stored record when the user has one
and the default never-seen value otherwise; it never fails. -/
theorem stateStore_get_total (s : stateStore) (u : Nat) :
    (u ∉ s.states.map Prod.fst → s.get u = neverSeen u)
    ∧ (u ∈ s.states.map Prod.fst
        → ∃ rec, (u, rec) ∈ s.states ∧ s.get u = rec)
    ∧ NewStateDB.get u = neverSeen u := by
  refine ⟨?_, ?_, rfl⟩
  · intro h
    have hnone : s.states.find? (fun p => p.1 == u) = none := by
      rw [List.find?_eq_none]
      intro p hp
      simp only [beq_iff_eq]
      intro he
      exact h (List.mem_map.mpr ⟨p, hp, he⟩)
    simp [stateStore.get, hnone]
  · intro h
    obtain ⟨p, hp, hfst⟩ := List.mem_map.mp h
    have hsome : (s.states.find? (fun q => q.1 == u)).isSome := by
      rw [List.find?_isSome]
      exact ⟨p, hp, by simp [hfst]⟩
    obtain ⟨q, hq⟩ := Option.isSome_iff_exists.mp hsome
    have hqmem : q ∈ s.states := List.mem_of_find?_eq_some hq
    have hqfst : q.1 = u := by
      have := List.find?_some hq
      simpa using this
    refine ⟨q.2, ?_, ?_⟩
    · have : q = (u, q.2) := by
        cases q
        simp at hqfst
        simp [hqfst]
      rw [← this]
      exact hqmem
    · simp [stateStore.get, hq]

/-- C5 witness: instantiation of `stateStore_get_total` at a one-record store,
for an absent user and for the present user. -/
theorem stateStore_get_total_witness :
    stateStore.get (stateStore.mk [(1, State.mk 1 (some "1") 5)]) 2
      = neverSeen 2
    ∧ (∃ rec, (1, rec) ∈ [(1, State.mk 1 (some "1") 5)]
        ∧ stateStore.get (stateStore.mk [(1, State.mk 1 (some "1") 5)]) 1
          = rec) :=
  ⟨(stateStore_get_total (stateStore.mk [(1, State.mk 1 (some "1") 5)]) 2).1
      (by decide),
   (stateStore_get_total (stateStore.mk [(1, State.mk 1 (some "1") 5)]) 1).2.1
      (by decide)⟩

/-- The echo loop over a block of successfully read-and-written frames peels
off one echo per frame, in order. -/
theorem joinRoomSession_okFrames (u : String) (l : List String)
    (rest : List FrameEvent) :
    joinRoomSession u (l.map okFrame ++ rest)
      = l.map (echoFormat u) ++ joinRoomSession u rest := by
  induction l with
  | nil => simp
  | cons m t ih => simp [joinRoomSession, okFrame, ih]

/-- C6: messages sent by one sender are delivered to each recipient in send
order — whenever the connection's event sequence contains m1 before m2 (both
read and echoed successfully), the delivered sequence contains the echo of m1
before the echo of m2, with all intermediate frames in order as well. -/
theorem sameSender_fifo (u m1 m2 : String) (pre mid : List String)
    (post : List FrameEvent) :
    joinRoomSession u
        (pre.map okFrame ++ okFrame m1 :: (mid.map okFrame
          ++ okFrame m2 :: post))
      = pre.map (echoFormat u)
          ++ echoFormat u m1 :: (mid.map (echoFormat u)
            ++ echoFormat u m2 :: joinRoomSession u post) := by
  rw [joinRoomSession_okFrames]
  simp [joinRoomSession, okFrame, joinRoomSession_okFrames]

/-- C1 counterexample: in the spec scenario — room "r1" with members A and B,
where A sends "hi" (and B reads nothing) — it is false that B's inbound
sequence yields exactly one message and A's own yields none: the code writes
only to the connection it read from, so B receives nothing and A receives the
echo of its own message. -/
theorem broadcast_scenario_counterexample :
    ¬ ((joinRoomSession "B" []).length = 1
        ∧ joinRoomSession "A" [okFrame "hi"] = []) := by
  decide

/-- C1 amended: `joinRoomHandler` performs no fan-out — the sequence delivered
to a connection consists exactly of the echoes of that same connection's own
successfully read-and-written frames, in order; in the scenario, A receives
the single echo of its own message and B receives nothing. -/
theorem joinRoom_echo_only_to_sender (u : String) (frames : List FrameEvent) :
    joinRoomSession u frames = (readFrames frames).map (echoFormat u)
    ∧ joinRoomSession "A" [okFrame "hi"] = ["A: hi"]
    ∧ joinRoomSession "B" [] = [] := by
  refine ⟨?_, by decide, rfl⟩
  induction frames with
  | nil => rfl
  | cons f rest ih =>
      cases f with
      | readError => rfl
      | frame m ok => cases ok <;> simp [joinRoomSession, readFrames, ih]

/-- C3 counterexample: a join naming the roomID "unknown-42", which no room in
the registry carries, is not rejected with RoomNotFound: the handler admits
the connection and runs the echo session, delivering a message — no
room-existence check and no RoomNotFound error exist in the code. -/
theorem join_unknown_room_counterexample :
    joinRoomHandler (some "A") "unknown-42" true [okFrame "hi"]
      = JoinOutcome.session ["A: hi"]
    ∧ (joinRoomHandler (some "A") "unknown-42" true
        [okFrame "hi"]).isSession = true
    ∧ "unknown-42" ∉ initialRooms.map Room.id := by
  refine ⟨by decide, by decide, by decide⟩

/-- C3 amended: `joinRoomHandler` never consults any room list: for every
roomID — ones absent from the registry included — an authenticated join with
a successful upgrade is admitted and runs the echo session. -/
theorem join_admits_unknown_room (rooms : List Room) (u roomID : String)
    (frames : List FrameEvent) (h : roomID ∉ rooms.map Room.id) :
    joinRoomHandler (some u) roomID true frames
      = JoinOutcome.session (joinRoomSession u frames) := by
  rfl

/-- C3 witness: instantiation of `join_admits_unknown_room` at roomID
"unknown-42" against the initial room list. -/
theorem join_admits_unknown_room_witness :
    joinRoomHandler (some "A") "unknown-42" true []
      = JoinOutcome.session (joinRoomSession "A" []) :=
  join_admits_unknown_room initialRooms "A" "unknown-42" [] (by decide)

set_option maxRecDepth 8000 in
/-- C7: `Send` on a full outbound queue drops the oldest queued message,
records the slow-consumer warning once for the window, and enqueues the new
message; enqueuing messages #1..#65 into the fresh capacity-64 queue with no
drain leaves the queue holding #2..#65 with exactly one warning recorded. -/
theorem outQueue_drop_oldest (q : OutQueue) (m : Nat)
    (h : q.items.length = q.capacity) :
    ((q.send m).items = q.items.tail ++ [m]
      ∧ (q.send m).warnings
          = (if q.warned then q.warnings else q.warnings + 1))
    ∧ (OutQueue.sendAll emptyQueue64
          ((List.range 65).map fun n => n + 1)).items
        = (List.range 64).map (fun n => n + 2)
    ∧ (OutQueue.sendAll emptyQueue64
          ((List.range 65).map fun n => n + 1)).warnings = 1 := by
  refine ⟨⟨?_, ?_⟩, by decide, by decide⟩ <;>
    simp [OutQueue.send, h, lt_irrefl]

/-- C7 witness: instantiation of `outQueue_drop_oldest` at a full one-slot
queue. -/
theorem outQueue_drop_oldest_witness :
    ((OutQueue.mk 1 [7] false 0).send 9).items = [9]
    ∧ ((OutQueue.mk 1 [7] false 0).send 9).warnings = 1 :=
  (outQueue_drop_oldest (OutQueue.mk 1 [7] false 0) 9 rfl).1

end AlfaChat
